import Mathlib

/-!
# Verification of the camlistore storage core

A shallow embedding, in Lean 4, of the storage core of this repository:

* the blob sniffer `index.BlobSniffer` (streaming classifier with a bounded
  prefix buffer), translated from the `index` source file;
* the S3 remote-backend constructors `s3.NewFromHCLConfig` and
  `s3.newFromConfigWithTransport` (bucket-spec splitting, startup listing
  check with one-shot redirect self-correction, and two-tier cache wrapping),
  translated from `pkg/blobserver/s3`.

Pure Go functions become Lean functions; the network is modelled as an
explicit oracle (`S3World`) passed to the constructor; Go's `panic` and
`error` returns become `Option`/`Except`.  Components of the repository that
the translated files call but whose sources are not available here
(`blob.Ref`, `pkg/schema`, `internal/magic`, `s3.Error`'s field invariants)
are modelled from the specification and say so in their doc comments.
-/

namespace Camlistore

/-! ## Content addresses (`blob.Ref`, modelled) -/

/-- Modelled from the spec: a Content Address is a typed, validated
identifier `(algorithm, digest-hex)` (`blob.Ref`, whose source is not in
`src/`). -/
structure BlobRef where
  algorithm : String
  digestHex : String
deriving DecidableEq

/-- Modelled from the spec: the fixed allow-list of digest algorithms,
each with the exact hex-digest length it requires. -/
def digestLength : String → Option Nat
  | "sha1" => some 40
  | "sha224" => some 56
  | _ => none

/-- Modelled from the spec: `blob.Ref.Valid` — the algorithm is recognized
and the digest-hex has the algorithm's exact length. -/
def BlobRef.Valid (r : BlobRef) : Bool :=
  match digestLength r.algorithm with
  | some n => r.digestHex.length == n
  | none => false

/-! ## Schema and magic collaborators (modelled) -/

/-- Modelled from the spec: a decoded structured metadata document
("schema blob"), carrying its declared type tag (`schema.Blob` with its
`Type()` accessor; the `pkg/schema` source is not in `src/`). -/
structure SchemaBlob where
  typeTag : String
deriving DecidableEq

/-- Modelled from the spec: the three external checks the sniffer combines,
whose sources (`pkg/schema`, `internal/magic`) are not in `src/`:

* `LikelySchemaBlob` — the cheap structural pre-check on the buffered prefix;
* `BlobFromReader` — the full decode of the buffer as a structured metadata
  document, `none` when decoding fails;
* `MagicMIMEType` — magic-number content-type sniffing, returning the empty
  string when the content type is undetermined.

The sniffer's definitions take this oracle as an explicit argument. -/
structure SchemaOracle where
  LikelySchemaBlob : List UInt8 → Bool
  BlobFromReader : BlobRef → List UInt8 → Option SchemaBlob
  MagicMIMEType : List UInt8 → String

/-- Modelled from the spec: the fixed buffer cap `schema.MaxSchemaBlobSize`
(the constant lives in `pkg/schema`, outside `src/`); the development depends
only on it being a fixed constant. -/
def MaxSchemaBlobSize : Nat := 1 <<< 20

/-! ## Go `int64` arithmetic -/

/-- Two's-complement reduction of an integer into the `int64` range: Go's
`int64` addition and shifts wrap around on overflow. -/
def wrap64 (n : Int) : Int := (n + 2 ^ 63) % 2 ^ 64 - 2 ^ 63

theorem wrap64_add_left (a b : Int) :
    wrap64 (wrap64 a + b) = wrap64 (a + b) := by
  simp only [wrap64]
  omega

theorem wrap64_idem (a : Int) : wrap64 (wrap64 a) = wrap64 a := by
  simp only [wrap64]
  omega

theorem wrap64_eq_self (n : Int) (h1 : -(2 ^ 63) ≤ n) (h2 : n < 2 ^ 63) :
    wrap64 n = n := by
  simp only [wrap64]
  omega

/-! ## The blob sniffer (`index.BlobSniffer`) -/

/-- The sniffer state: the blob ref it was created for, the bounded prefix
buffer `contents`, the running total `written` (a Go `int64` in the source,
whose addition wraps on overflow — every update below goes through
`wrap64`), and the classification fields filled in by `Parse`. -/
structure BlobSniffer where
  br : BlobRef
  contents : List UInt8
  written : Int
  meta : Option SchemaBlob
  mimeType : String
  camliType : String
deriving DecidableEq

/-- `NewBlobSniffer`: construction panics (`none`) on an invalid ref. -/
def NewBlobSniffer (ref : BlobRef) : Option BlobSniffer :=
  if !ref.Valid then
    none
  else
    some { br := ref, contents := [], written := 0, meta := none,
           mimeType := "", camliType := "" }

/-- `BlobSniffer.Write`: panics (`none`) on an invalid ref; otherwise adds
`int64(len(d))` to the running total with `int64` wraparound, appends to the
buffer only while it is below `MaxSchemaBlobSize`, and reports
`(len(d), nil)`. -/
def BlobSniffer.Write (sn : BlobSniffer) (d : List UInt8) :
    Option (BlobSniffer × Nat) :=
  if !sn.br.Valid then
    none
  else
    let sn := { sn with written := wrap64 (sn.written + (d.length : Int)) }
    let sn :=
      if sn.contents.length < MaxSchemaBlobSize then
        let n := MaxSchemaBlobSize - sn.contents.length
        let n := if d.length < n then d.length else n
        { sn with contents := sn.contents ++ d.take n }
      else
        sn
    some (sn, d.length)

/-- `BlobSniffer.Size`: the `int64` byte counter of the sniffer. -/
def BlobSniffer.Size (sn : BlobSniffer) : Int := sn.written

/-- `BlobSniffer.IsTruncated`: whether more than `MaxSchemaBlobSize` bytes
were written. -/
def BlobSniffer.IsTruncated (sn : BlobSniffer) : Bool :=
  decide ((MaxSchemaBlobSize : Int) < sn.written)

/-- `BlobSniffer.Body`: the buffered bytes, or an error if truncated. -/
def BlobSniffer.Body (sn : BlobSniffer) : Except String (List UInt8) :=
  if sn.IsTruncated then
    .error "index.Body: was truncated"
  else
    .ok sn.contents

/-- `BlobSniffer.MIMEType`: the sniffed content type, filled in by `Parse`. -/
def BlobSniffer.MIMEType (sn : BlobSniffer) : String := sn.mimeType

/-- `BlobSniffer.CamliType`: the schema type tag, filled in by `Parse`. -/
def BlobSniffer.CamliType (sn : BlobSniffer) : String := sn.camliType

/-- `BlobSniffer.bufferIsCamliJSON`: the structural pre-check followed by the
full decode; on success it records the decoded document in `meta` (the Go
method mutates the receiver, so the embedding returns the updated state). -/
def BlobSniffer.bufferIsCamliJSON (sn : BlobSniffer) (o : SchemaOracle) :
    Bool × BlobSniffer :=
  let buf := sn.contents
  if !o.LikelySchemaBlob buf then
    (false, sn)
  else
    match o.BlobFromReader sn.br buf with
    | none => (false, sn)
    | some blob => (true, { sn with meta := some blob })

/-- `BlobSniffer.Parse`: resolve the classification, either from the decoded
schema document's type tag or by magic-number sniffing of the buffer. -/
def BlobSniffer.Parse (sn : BlobSniffer) (o : SchemaOracle) : BlobSniffer :=
  match sn.bufferIsCamliJSON o with
  | (true, sn) =>
      let tag := (sn.meta.getD { typeTag := "" }).typeTag
      { sn with camliType := tag,
                mimeType := "application/json; camliType=" ++ tag }
  | (false, sn) =>
      { sn with mimeType := o.MagicMIMEType sn.contents }

/-- Running a sequence of `Write` calls in order, propagating the panic. -/
def runWrites : BlobSniffer → List (List UInt8) → Option BlobSniffer
  | sn, [] => some sn
  | sn, d :: ds =>
    match sn.Write d with
    | none => none
    | some (sn', _) => runWrites sn' ds

/-- The total number of bytes in a sequence of writes. -/
def totalWritten (ds : List (List UInt8)) : Nat :=
  (ds.map List.length).sum

/-! ### Write-state characterization -/

/-- The state transition a single successful `Write` performs (the branch in
the source collapses to this unconditional form, `write_eq_writeStep`). -/
def writeStep (sn : BlobSniffer) (d : List UInt8) : BlobSniffer :=
  { sn with written := wrap64 (sn.written + (d.length : Int)),
            contents := sn.contents ++ d.take (MaxSchemaBlobSize - sn.contents.length) }

/-- Folding `writeStep` over a sequence of chunks. -/
def writeAll (sn : BlobSniffer) (ds : List (List UInt8)) : BlobSniffer :=
  ds.foldl writeStep sn

theorem write_eq_writeStep (sn : BlobSniffer) (d : List UInt8)
    (h : sn.br.Valid = true) :
    sn.Write d = some (writeStep sn d, d.length) := by
  unfold BlobSniffer.Write writeStep
  rw [h]
  simp only [Bool.not_true, Bool.false_eq_true, if_false]
  split
  · rename_i hlt
    have : (if d.length < MaxSchemaBlobSize - sn.contents.length
              then d.length else MaxSchemaBlobSize - sn.contents.length) =
           min d.length (MaxSchemaBlobSize - sn.contents.length) := by
      split <;> omega
    simp only [this]
    have htake : d.take (min d.length (MaxSchemaBlobSize - sn.contents.length)) =
        d.take (MaxSchemaBlobSize - sn.contents.length) := by
      rcases Nat.le_total d.length (MaxSchemaBlobSize - sn.contents.length) with hle | hle
      · rw [Nat.min_eq_left hle, List.take_length, List.take_of_length_le hle]
      · rw [Nat.min_eq_right hle]
    rw [htake]
  · rename_i hge
    have hz : MaxSchemaBlobSize - sn.contents.length = 0 := by omega
    simp [hz]

theorem writeStep_br (sn : BlobSniffer) (d : List UInt8) :
    (writeStep sn d).br = sn.br := rfl

theorem writeStep_nil (sn : BlobSniffer) (h : wrap64 sn.written = sn.written) :
    writeStep sn [] = sn := by
  simp [writeStep, h]

theorem writeStep_append (sn : BlobSniffer) (d₁ d₂ : List UInt8) :
    writeStep (writeStep sn d₁) d₂ = writeStep sn (d₁ ++ d₂) := by
  unfold writeStep
  simp only [List.length_append, List.append_assoc, BlobSniffer.mk.injEq,
    and_true, true_and]
  refine ⟨?_, by rw [wrap64_add_left]; congr 1; push_cast; ring⟩
  rw [List.take_append_eq_append_take]
  have hidx : MaxSchemaBlobSize - (sn.contents.length +
      (List.take (MaxSchemaBlobSize - sn.contents.length) d₁).length) =
      MaxSchemaBlobSize - sn.contents.length - d₁.length := by
    rw [List.length_take]
    omega
  rw [hidx]

theorem runWrites_eq_writeAll (sn : BlobSniffer) (ds : List (List UInt8))
    (h : sn.br.Valid = true) :
    runWrites sn ds = some (writeAll sn ds) := by
  induction ds generalizing sn with
  | nil => rfl
  | cons d ds ih =>
    rw [runWrites, write_eq_writeStep sn d h]
    exact ih (writeStep sn d) (by rw [writeStep_br]; exact h)

theorem writeStep_wrap (sn : BlobSniffer) (d : List UInt8) :
    wrap64 (writeStep sn d).written = (writeStep sn d).written :=
  wrap64_idem _

theorem writeAll_eq_writeStep_flatten (sn : BlobSniffer)
    (ds : List (List UInt8)) (h : wrap64 sn.written = sn.written) :
    writeAll sn ds = writeStep sn ds.flatten := by
  induction ds generalizing sn with
  | nil => simp [writeAll, writeStep_nil sn h]
  | cons d ds ih =>
    rw [writeAll, List.foldl_cons, List.flatten_cons, ← writeStep_append]
    exact ih (writeStep sn d) (writeStep_wrap sn d)

theorem writeStep_written (sn : BlobSniffer) (d : List UInt8) :
    (writeStep sn d).written = wrap64 (sn.written + (d.length : Int)) := rfl

theorem writeStep_contents (sn : BlobSniffer) (d : List UInt8) :
    (writeStep sn d).contents =
      sn.contents ++ d.take (MaxSchemaBlobSize - sn.contents.length) := rfl

theorem newBlobSniffer_some (ref : BlobRef) (sn₀ : BlobSniffer)
    (h : NewBlobSniffer ref = some sn₀) :
    ref.Valid = true ∧
    sn₀ = { br := ref, contents := [], written := 0, meta := none,
            mimeType := "", camliType := "" } := by
  unfold NewBlobSniffer at h
  rcases hv : ref.Valid with _ | _
  · rw [hv] at h
    simp at h
  · rw [hv] at h
    simp only [Bool.not_true, Bool.false_eq_true, if_false, Option.some.injEq] at h
    exact ⟨rfl, h.symm⟩

theorem runWrites_some (ref : BlobRef) (sn₀ sn₁ : BlobSniffer)
    (ds : List (List UInt8)) (h0 : NewBlobSniffer ref = some sn₀)
    (h1 : runWrites sn₀ ds = some sn₁) :
    sn₁ = writeStep sn₀ ds.flatten := by
  obtain ⟨hv, hs⟩ := newBlobSniffer_some ref sn₀ h0
  have hbr : sn₀.br.Valid = true := by rw [hs]; exact hv
  have hwz : wrap64 sn₀.written = sn₀.written := by
    rw [hs]
    show wrap64 0 = 0
    decide
  rw [runWrites_eq_writeAll sn₀ ds hbr,
    writeAll_eq_writeStep_flatten sn₀ ds hwz] at h1
  exact (Option.some.injEq _ _ ▸ h1).symm

/-- Fixed concrete inputs used by the witnesses below. -/
def refW : BlobRef :=
  { algorithm := "sha1",
    digestHex := "aaaaaaaaaaaaaaaaaaaaaaaaaaaaaaaaaaaaaaaa" }

/-- The sniffer state freshly constructed for `refW`. -/
def snW0 : BlobSniffer :=
  { br := refW, contents := [], written := 0, meta := none,
    mimeType := "", camliType := "" }

/-- The sniffer state after writing the chunks `[1, 2]` then `[3]`. -/
def snW1 : BlobSniffer :=
  { br := refW, contents := [1, 2, 3], written := 3, meta := none,
    mimeType := "", camliType := "" }

/-- A concrete classification oracle used by witnesses. -/
def oracleW : SchemaOracle :=
  { LikelySchemaBlob := fun _ => true,
    BlobFromReader := fun _ _ => some { typeTag := "file" },
    MagicMIMEType := fun _ => "" }

/-! ## Claim theorems about the sniffer -/

/-- **C3 (amended).** For every sequence of writes to a sniffer totaling `N`
bytes, `IsTruncated` is true iff the `int64` counter — the total reduced by
two's-complement wraparound — strictly exceeds the buffer cap; in
particular, whenever `N < 2^63` (any physically realizable stream),
`IsTruncated` is true iff `N` strictly exceeds the cap (a payload of exactly
the cap is not truncated, one byte over is); and `Body` errors iff the
sniffer is truncated, otherwise returning the buffered bytes. -/
theorem sniffer_truncation_body (ref : BlobRef) (sn₀ sn₁ : BlobSniffer)
    (ds : List (List UInt8)) (h0 : NewBlobSniffer ref = some sn₀)
    (h1 : runWrites sn₀ ds = some sn₁) :
    (sn₁.IsTruncated = true ↔
      (MaxSchemaBlobSize : Int) < wrap64 (totalWritten ds)) ∧
    (totalWritten ds < 2 ^ 63 →
      (sn₁.IsTruncated = true ↔ MaxSchemaBlobSize < totalWritten ds)) ∧
    (sn₁.IsTruncated = true →
      sn₁.Body = Except.error "index.Body: was truncated") ∧
    (sn₁.IsTruncated = false → sn₁.Body = Except.ok sn₁.contents) := by
  have hstep := runWrites_some ref sn₀ sn₁ ds h0 h1
  have hzero : sn₀.written = 0 := by
    rw [(newBlobSniffer_some ref sn₀ h0).2]
  have hwr : sn₁.written = wrap64 (totalWritten ds) := by
    rw [hstep, writeStep_written, hzero]
    simp [List.length_flatten, totalWritten]
  refine ⟨?_, ?_, ?_, ?_⟩
  · rw [BlobSniffer.IsTruncated, hwr, decide_eq_true_iff]
  · intro hlt
    have hself : wrap64 ((totalWritten ds : Int)) = (totalWritten ds : Int) :=
      wrap64_eq_self _ (by omega) (by omega)
    rw [BlobSniffer.IsTruncated, hwr, hself, decide_eq_true_iff]
    exact Nat.cast_lt
  · intro ht
    rw [BlobSniffer.Body, ht]
    rfl
  · intro ht
    rw [BlobSniffer.Body, ht]
    rfl

theorem sniffer_truncation_body_witness :
    snW1.Body = Except.ok snW1.contents ∧
    (snW1.IsTruncated = true ↔ MaxSchemaBlobSize < totalWritten [[1, 2], [3]]) :=
  ⟨(sniffer_truncation_body refW snW0 snW1 [[1, 2], [3]] (by decide)
      (by decide)).2.2.2 (by decide),
   (sniffer_truncation_body refW snW0 snW1 [[1, 2], [3]] (by decide)
      (by decide)).2.1 (by decide)⟩

/-- **C3 counterexample.** Two writes of `2^62` bytes each (both lengths a
Go slice can have) total `2^63` bytes: the `int64` counter wraps to
`-(2^63)`, so `IsTruncated` reports `false` although the total strictly
exceeds the buffer cap — refuting the claim's iff as stated. -/
theorem sniffer_truncation_counterexample :
    (runWrites snW0 [List.replicate (2 ^ 62) 0,
        List.replicate (2 ^ 62) 0]).map BlobSniffer.IsTruncated =
      some false ∧
    MaxSchemaBlobSize <
      totalWritten [List.replicate (2 ^ 62) (0 : UInt8),
        List.replicate (2 ^ 62) 0] := by
  have hval : snW0.br.Valid = true := by decide
  have hwz : wrap64 snW0.written = snW0.written := by
    show wrap64 0 = 0
    decide
  have hlen : (([List.replicate (2 ^ 62) (0 : UInt8),
      List.replicate (2 ^ 62) 0] : List (List UInt8)).flatten).length =
      2 ^ 63 := by
    rw [List.flatten_cons, List.flatten_cons, List.flatten_nil,
      List.append_nil, List.length_append, List.length_replicate]
    norm_num
  constructor
  · rw [runWrites_eq_writeAll _ _ hval, writeAll_eq_writeStep_flatten _ _ hwz,
      Option.map_some']
    have hw : (writeStep snW0 ([List.replicate (2 ^ 62) (0 : UInt8),
        List.replicate (2 ^ 62) 0] : List (List UInt8)).flatten).written =
        wrap64 ((2 ^ 63 : Nat) : Int) := by
      rw [writeStep_written, hlen]
      show wrap64 ((0 : Int) + ((2 ^ 63 : Nat) : Int)) =
        wrap64 ((2 ^ 63 : Nat) : Int)
      rw [zero_add]
    rw [BlobSniffer.IsTruncated, hw]
    decide
  · show MaxSchemaBlobSize <
      (([List.replicate (2 ^ 62) (0 : UInt8),
        List.replicate (2 ^ 62) 0]).map List.length).sum
    rw [List.map_cons, List.map_cons, List.map_nil, List.length_replicate,
      List.sum_cons, List.sum_cons, List.sum_nil]
    decide

/-- **C4.** Chunking-independence: writing the chunks of `ds` in order yields
exactly the same final state — hence the same `Size`, `IsTruncated`, buffered
contents, and `Parse` classification under any oracle — as writing the whole
concatenated sequence in a single `Write` call. -/
theorem sniffer_chunking_independence (ref : BlobRef) (sn₀ : BlobSniffer)
    (h : NewBlobSniffer ref = some sn₀) (ds : List (List UInt8)) :
    runWrites sn₀ ds = runWrites sn₀ [ds.flatten] ∧
    ∀ o : SchemaOracle,
      (runWrites sn₀ ds).map
          (fun sn => (sn.Size, sn.IsTruncated, sn.contents,
            (sn.Parse o).CamliType, (sn.Parse o).MIMEType)) =
        (runWrites sn₀ [ds.flatten]).map
          (fun sn => (sn.Size, sn.IsTruncated, sn.contents,
            (sn.Parse o).CamliType, (sn.Parse o).MIMEType)) := by
  obtain ⟨hv, hs⟩ := newBlobSniffer_some ref sn₀ h
  have hbr : sn₀.br.Valid = true := by rw [hs]; exact hv
  have hwz : wrap64 sn₀.written = sn₀.written := by
    rw [hs]
    show wrap64 0 = 0
    decide
  have hmain : runWrites sn₀ ds = runWrites sn₀ [ds.flatten] := by
    rw [runWrites_eq_writeAll sn₀ ds hbr, runWrites_eq_writeAll sn₀ [ds.flatten] hbr,
      writeAll_eq_writeStep_flatten sn₀ ds hwz,
      writeAll_eq_writeStep_flatten sn₀ [ds.flatten] hwz]
    simp
  exact ⟨hmain, fun o => by rw [hmain]⟩

theorem sniffer_chunking_independence_witness :
    runWrites snW0 [[1, 2], [3]] = runWrites snW0 [[[1, 2], [3]].flatten] :=
  (sniffer_chunking_independence refW snW0 (by decide) [[1, 2], [3]]).1

/-- **C5.** After `Parse`: if the buffered prefix passes the structural
pre-check and fully decodes as a structured metadata document, the
classification tag is the decoded document's declared type tag and the MIME
type is `"application/json; camliType=" ++ tag`; if either check fails the
MIME type is the magic-number sniffing result over the buffered prefix. -/
theorem sniffer_parse_rule (o : SchemaOracle) (sn : BlobSniffer) :
    (∀ m, o.LikelySchemaBlob sn.contents = true →
        o.BlobFromReader sn.br sn.contents = some m →
        (sn.Parse o).CamliType = m.typeTag ∧
        (sn.Parse o).MIMEType = "application/json; camliType=" ++ m.typeTag) ∧
    (o.LikelySchemaBlob sn.contents = false →
        (sn.Parse o).MIMEType = o.MagicMIMEType sn.contents ∧
        (sn.Parse o).CamliType = sn.camliType) ∧
    (o.BlobFromReader sn.br sn.contents = none →
        (sn.Parse o).MIMEType = o.MagicMIMEType sn.contents ∧
        (sn.Parse o).CamliType = sn.camliType) := by
  refine ⟨?_, ?_, ?_⟩
  · intro m hlik hdec
    rw [BlobSniffer.Parse, BlobSniffer.bufferIsCamliJSON, hlik]
    simp only [Bool.not_true, Bool.false_eq_true, if_false]
    rw [hdec]
    exact ⟨rfl, rfl⟩
  · intro hlik
    rw [BlobSniffer.Parse, BlobSniffer.bufferIsCamliJSON, hlik]
    exact ⟨rfl, rfl⟩
  · intro hdec
    rw [BlobSniffer.Parse, BlobSniffer.bufferIsCamliJSON]
    rcases hlik : o.LikelySchemaBlob sn.contents with _ | _
    · exact ⟨rfl, rfl⟩
    · simp only [Bool.not_true, Bool.false_eq_true, if_false]
      rw [hdec]
      exact ⟨rfl, rfl⟩

theorem sniffer_parse_rule_witness :
    (snW1.Parse oracleW).CamliType = "file" ∧
    (snW1.Parse oracleW).MIMEType = "application/json; camliType=" ++ "file" :=
  (sniffer_parse_rule oracleW snW1).1 { typeTag := "file" } rfl rfl

/-- **C8 (amended).** For every sequence of writes, `Size` is the total
number of bytes ever written reduced into the `int64` range by
two's-complement wraparound — equal to the total whenever it is below
`2^63`, as in any physically realizable stream — while the buffer retains
exactly the first `min (total, MaxSchemaBlobSize)` bytes of the stream:
bytes past the cap are counted but never stored. -/
theorem sniffer_size_buffer (ref : BlobRef) (sn₀ sn₁ : BlobSniffer)
    (ds : List (List UInt8)) (h0 : NewBlobSniffer ref = some sn₀)
    (h1 : runWrites sn₀ ds = some sn₁) :
    sn₁.Size = wrap64 (totalWritten ds) ∧
    (totalWritten ds < 2 ^ 63 → sn₁.Size = (totalWritten ds : Int)) ∧
    sn₁.contents = ds.flatten.take MaxSchemaBlobSize ∧
    sn₁.contents.length = min (totalWritten ds) MaxSchemaBlobSize := by
  have hstep := runWrites_some ref sn₀ sn₁ ds h0 h1
  have hs := (newBlobSniffer_some ref sn₀ h0).2
  have hcont : sn₁.contents = ds.flatten.take MaxSchemaBlobSize := by
    rw [hstep, writeStep_contents, hs]
    simp
  have hsize : sn₁.Size = wrap64 (totalWritten ds) := by
    rw [BlobSniffer.Size, hstep, writeStep_written, hs]
    simp [List.length_flatten, totalWritten]
  refine ⟨hsize, ?_, hcont, ?_⟩
  · intro hlt
    rw [hsize]
    exact wrap64_eq_self _ (by omega) (by omega)
  · rw [hcont, List.length_take, List.length_flatten, totalWritten,
      Nat.min_comm]

theorem sniffer_size_buffer_witness :
    snW1.Size = (totalWritten [[1, 2], [3]] : Int) ∧
    snW1.contents = [[1, 2], [3]].flatten.take MaxSchemaBlobSize :=
  ⟨(sniffer_size_buffer refW snW0 snW1 [[1, 2], [3]] (by decide)
      (by decide)).2.1 (by decide),
   (sniffer_size_buffer refW snW0 snW1 [[1, 2], [3]] (by decide)
      (by decide)).2.2.1⟩

/-- **C8 counterexample.** Two writes of `2^62` bytes each total `2^63`
bytes: the `int64` counter wraps, so `Size` reports `-(2^63)`, not the total
number of bytes ever written — refuting the claim as stated. -/
theorem sniffer_size_counterexample :
    (runWrites snW0 [List.replicate (2 ^ 62) 0,
        List.replicate (2 ^ 62) 0]).map BlobSniffer.Size =
      some (-(2 ^ 63) : Int) ∧
    (-(2 ^ 63) : Int) ≠
      (totalWritten [List.replicate (2 ^ 62) (0 : UInt8),
        List.replicate (2 ^ 62) 0] : Int) := by
  have hval : snW0.br.Valid = true := by decide
  have hwz : wrap64 snW0.written = snW0.written := by
    show wrap64 0 = 0
    decide
  have hlen : (([List.replicate (2 ^ 62) (0 : UInt8),
      List.replicate (2 ^ 62) 0] : List (List UInt8)).flatten).length =
      2 ^ 63 := by
    rw [List.flatten_cons, List.flatten_cons, List.flatten_nil,
      List.append_nil, List.length_append, List.length_replicate]
    norm_num
  constructor
  · rw [runWrites_eq_writeAll _ _ hval, writeAll_eq_writeStep_flatten _ _ hwz,
      Option.map_some']
    rw [BlobSniffer.Size, writeStep_written, hlen]
    show some (wrap64 ((0 : Int) + ((2 ^ 63 : Nat) : Int))) =
      some (-(2 ^ 63) : Int)
    decide
  · have hts : totalWritten [List.replicate (2 ^ 62) (0 : UInt8),
        List.replicate (2 ^ 62) 0] = 2 ^ 63 := by
      show (([List.replicate (2 ^ 62) (0 : UInt8),
        List.replicate (2 ^ 62) 0]).map List.length).sum = 2 ^ 63
      rw [List.map_cons, List.map_cons, List.map_nil, List.length_replicate,
        List.sum_cons, List.sum_cons, List.sum_nil]
      norm_num
    rw [hts]
    decide

/-- **C9.** Constructing a sniffer with an invalid Content Address fails fast
(no sniffer is returned); for every valid Content Address construction
succeeds, and every `Write` on a sniffer reached from such a construction
succeeds, reporting the full byte count. -/
theorem sniffer_construction_guard (ref : BlobRef) :
    (ref.Valid = false → NewBlobSniffer ref = none) ∧
    (ref.Valid = true →
      NewBlobSniffer ref = some { br := ref, contents := [], written := 0,
                                  meta := none, mimeType := "", camliType := "" }) ∧
    (∀ sn₀ ds sn₁ d, NewBlobSniffer ref = some sn₀ →
      runWrites sn₀ ds = some sn₁ →
      sn₁.Write d = some (writeStep sn₁ d, d.length)) := by
  refine ⟨?_, ?_, ?_⟩
  · intro hv
    rw [NewBlobSniffer, hv]
    rfl
  · intro hv
    rw [NewBlobSniffer, hv]
    rfl
  · intro sn₀ ds sn₁ d h0 h1
    have hv := (newBlobSniffer_some ref sn₀ h0).1
    have hstep := runWrites_some ref sn₀ sn₁ ds h0 h1
    have hbr : sn₁.br.Valid = true := by
      rw [hstep, writeStep_br, (newBlobSniffer_some ref sn₀ h0).2]
      exact hv
    exact write_eq_writeStep sn₁ d hbr

theorem sniffer_construction_guard_witness :
    NewBlobSniffer refW = some { br := refW, contents := [], written := 0,
                                 meta := none, mimeType := "", camliType := "" } ∧
    snW1.Write [7] = some (writeStep snW1 [7], 1) :=
  ⟨(sniffer_construction_guard refW).2.1 (by decide),
   (sniffer_construction_guard refW).2.2 snW0 [[1, 2], [3]] snW1 [7]
     (by decide) (by decide)⟩

/-! ## String helpers used by the S3 constructors -/

/-- `strings.SplitN(s, "/", 2)` on the underlying character list: the part
before the first `'/'`, and — when a slash is present — the remainder. -/
def splitN2 : List Char → List Char × Option (List Char)
  | [] => ([], none)
  | c :: cs =>
    if c = '/' then
      ([], some cs)
    else
      let r := splitN2 cs
      (c :: r.1, r.2)

/-- `strings.HasSuffix(s, "/")` on the underlying character list. -/
def hasSlashSuffix (l : List Char) : Bool := l.getLast? == some '/'

/-- The bucket-spec split both constructors perform: `strings.SplitN(bucket,
"/", 2)` keeps everything before the first slash as the bucket name; when a
slash is present the remainder becomes `dirPrefix`, suffixed with `"/"` when
it is non-empty and not already slash-terminated. -/
def bucketAndDirPrefix (spec : String) : String × String :=
  match splitN2 spec.data with
  | (b, none) => (⟨b⟩, "")
  | (b, some rest) =>
      let dp := if !rest.isEmpty && !hasSlashSuffix rest then rest ++ ['/']
                else rest
      (⟨b⟩, ⟨dp⟩)

/-- `strings.TrimPrefix`: drop `pre` from the front of `s` when present. -/
def goTrimPrefix (s pre : String) : String :=
  if pre.data.isPrefixOf s.data then ⟨s.data.drop pre.data.length⟩ else s

/-! ## The S3 remote backend (`pkg/blobserver/s3`) -/

/-- The two fields of `s3.Error` the startup check inspects. -/
structure S3Err where
  amazonCode : String
  useEndpoint : String
deriving DecidableEq

/-- Modelled from the spec: the spec's startup-check failure classification
(§4.3 step 4) assigns each failure exactly one condition; in particular a
wrong-region redirect (code `"PermanentRedirect"`, sent when the hostname has
dots) and a suggested-endpoint redirect (non-empty `UseEndpoint`, sent when
the bucket name has no dots) never occur together on one error.  The
`s3.Error` parser that guarantees this lives in `internal/amazon/s3`, outside
`src/`. -/
def S3Err.WellFormed (e : S3Err) : Prop :=
  ¬ (e.amazonCode = "PermanentRedirect" ∧ e.useEndpoint ≠ "")

instance (e : S3Err) : Decidable e.WellFormed := by
  unfold S3Err.WellFormed
  infer_instance

/-- An error returned by a `ListBucket` call: either a decoded `*s3.Error`
or any other (transport-level) error. -/
inductive ListBucketErr where
  | s3 (e : S3Err)
  | other (msg : String)
deriving DecidableEq

/-- Modelled from the spec: the `%v` rendering of a listing error surfaces
the Amazon error code (`s3.Error`'s `Error()` method, outside `src/`,
includes the response naming the code). -/
def ListBucketErr.render : ListBucketErr → String
  | .s3 e => "s3 request failed: " ++ e.amazonCode
  | .other msg => msg

/-- The remote service as observed through the client: `ListBucket` and
`BucketLocation` take the client's current `Auth.Hostname` (first argument,
mutable in the Go client) and the bucket name.  `ListBucket hostname bucket`
is the one-item listing `client.ListBucket(ctx, bucket, "", 1)`; `none`
means success. -/
structure S3World where
  ListBucket : String → String → Option ListBucketErr
  BucketLocation : String → String → Except String String

/-- The `s3Storage` struct: bucket, optional slash-terminated directory
prefix, the configured hostname, plus the client state the constructor
builds (`client.Auth`); `clientHostname` is `client.Auth.Hostname`, which
the startup check may rebind. -/
structure S3Storage where
  bucket : String
  dirPrefix : String
  hostname : String
  clientHostname : String
  accessKey : String
  secretAccessKey : String
deriving DecidableEq

/-- The storage values the constructors can return: the bare S3 backend, a
`memory.NewCache` tier, or a `proxycache.New` wrapper.  Capacities are the
`int64` values passed to the constructors. -/
inductive Storage where
  | s3 (sto : S3Storage)
  | memCache (maxSize : Int)
  | proxyCache (maxBytes : Int) (cache : Storage) (origin : Storage)
deriving DecidableEq

/-- Go's `<<` on `int64`: an arithmetic shift whose overflow wraps around. -/
def shiftLeft64 (x : Int) (n : Nat) : Int := wrap64 (x * 2 ^ n)

/-- The tail of both constructors: a non-zero cache size wraps the backend as
`proxycache.New(cacheSize<<2, memory.NewCache(cacheSize), sto)`; a zero cache
size returns the bare backend. -/
def wrapCache (cacheSize : Int) (sto : Storage) : Storage :=
  if cacheSize ≠ 0 then
    .proxyCache (shiftLeft64 cacheSize 2) (.memCache cacheSize) sto
  else
    sto

/-- The `log.Printf` warning emitted after a successful self-correcting
retry. -/
def warnMsg (goodHost origHost : String) : String :=
  "Warning: s3 server should be \"" ++ goodHost ++ "\", not \"" ++ origHost ++
    "\". Change config file to avoid start-up latency."

/-- The redirect-recovery block both constructors share, entered with the
`*s3.Error` of the failed first listing after the fatal configuration cases
have returned.  It mirrors the two sequential `if` statements of the source:

* code `"PermanentRedirect"`: query `BucketLocation` (with the not-yet-rebound
  hostname); a location error aborts construction (`Except.error`); otherwise
  rebind the client's hostname to the location and retry the listing once,
  logging the warning on success;
* non-empty `UseEndpoint`: rebind the client's hostname to the endpoint with
  the leading `bucket+"."` stripped, retry the listing once, same warning.

Returns the final `err` value, the client's hostname, the number of retry
`ListBucket` calls made, and the warnings logged. -/
def redirectRecover (w : S3World) (serr : S3Err) (bucket hostname : String) :
    Except String (Option ListBucketErr × String × Nat × List String) :=
  let step1 : Except String (Option ListBucketErr × String × Nat × List String) :=
    if serr.amazonCode = "PermanentRedirect" then
      match w.BucketLocation hostname bucket with
      | .error lerr =>
          .error ("Wrong server for bucket \"" ++ bucket ++
            "\"; and error determining bucket's location: " ++ lerr)
      | .ok loc =>
          let e := w.ListBucket loc bucket
          .ok (e, loc, 1, if e = none then [warnMsg loc hostname] else [])
    else
      .ok (some (.s3 serr), hostname, 0, [])
  match step1 with
  | .error m => .error m
  | .ok (e, h, c, ws) =>
    if serr.useEndpoint ≠ "" then
      let h2 := goTrimPrefix serr.useEndpoint (bucket ++ ".")
      let e2 := w.ListBucket h2 bucket
      .ok (e2, h2, c + 1, ws ++ (if e2 = none then [warnMsg h2 hostname] else []))
    else
      .ok (e, h, c, ws)

instance exceptDecEq {ε α : Type} [DecidableEq ε] [DecidableEq α] :
    DecidableEq (Except ε α)
  | .error a, .error b =>
    if h : a = b then .isTrue (by rw [h]) else .isFalse (by simp [h])
  | .error _, .ok _ => .isFalse (by simp)
  | .ok _, .error _ => .isFalse (by simp)
  | .ok a, .ok b =>
    if h : a = b then .isTrue (by rw [h]) else .isFalse (by simp [h])

/-- What a construction run produced: the result (`Except` failure or the
returned storage), how many `ListBucket` calls were issued, the warnings
logged, and the client's final hostname. -/
structure BuildOutcome (ε : Type) where
  result : Except ε Storage
  listBucketCalls : Nat
  warnings : List String
  clientHostname : String
deriving DecidableEq

/-- The configuration locations the HCL constructor reports errors at. -/
inductive ConfigRange where
  | bucketRange
  | accessKeyRange
deriving DecidableEq

/-- An `hcl.Diagnostic` as the HCL constructor fills it in: summary, detail,
and the configuration range it points at. -/
structure Diagnostic where
  summary : String
  detail : String
  subject : ConfigRange
deriving DecidableEq

/-- A failure of the HCL constructor: diagnostics or a plain error. -/
inductive HCLFailure where
  | diags (ds : List Diagnostic)
  | errorMsg (msg : String)
deriving DecidableEq

/-- The decoded HCL configuration fields `NewFromHCLConfig` consumes (the
HCL expression decoding itself is an out-of-scope collaborator: decode
failures return the accumulated diagnostics before any of the logic
modelled here runs). -/
structure HCLS3Config where
  bucket : String
  hostname : Option String
  cacheSize : Option Int
  accessKeyID : String
  secretAccessKey : String
  skipStartupCheck : Option Bool
deriving DecidableEq

/-- The `NoSuchBucket` diagnostic: names the bucket and points at the bucket
argument's configuration range. -/
def noSuchBucketDiag (bucket : String) : Diagnostic :=
  { summary := "Invalid S3 bucket",
    detail := "There is no bucket named \"" ++ bucket ++ "\".",
    subject := .bucketRange }

/-- The `InvalidAccessKeyId` diagnostic: names the rejected access key id and
points at the access-key argument's configuration range. -/
def invalidAccessKeyDiag (accessKeyID : String) : Diagnostic :=
  { summary := "Invalid AWS Access Key ID",
    detail := "The given access key id \"" ++ accessKeyID ++
      "\" was refused by the S3 API.",
    subject := .accessKeyRange }

/-- The startup-check block of `NewFromHCLConfig`, entered with the bucket,
hostname and access key already resolved: the one-item listing, the two
fatal diagnostic cases, the redirect recovery, and the final
`Error listing bucket` check.  Returns the failure (if any), the client's
hostname, the number of `ListBucket` calls issued, and the warnings logged. -/
def hclStartupCheck (w : S3World) (bucket hostname accessKeyID : String) :
    Option HCLFailure × String × Nat × List String :=
  match w.ListBucket hostname bucket with
  | none => (none, hostname, 1, [])
  | some (.other m) =>
      (some (.errorMsg ("Error listing bucket " ++ bucket ++ ": " ++
        ListBucketErr.render (.other m))), hostname, 1, [])
  | some (.s3 serr) =>
    if serr.amazonCode = "NoSuchBucket" then
      (some (.diags [noSuchBucketDiag bucket]), hostname, 1, [])
    else if serr.amazonCode = "InvalidAccessKeyId" then
      (some (.diags [invalidAccessKeyDiag accessKeyID]), hostname, 1, [])
    else
      match redirectRecover w serr bucket hostname with
      | .error m => (some (.errorMsg m), hostname, 1, [])
      | .ok (some e, h, c, ws) =>
          (some (.errorMsg ("Error listing bucket " ++ bucket ++ ": " ++
            e.render)), h, 1 + c, ws)
      | .ok (none, h, c, ws) => (none, h, 1 + c, ws)

/-- `NewFromHCLConfig` after the HCL field decode: hostname and cache-size
defaults, bucket-spec split, `s3Storage` construction, the optional startup
check, and the cache wrap. -/
def NewFromHCLConfig (w : S3World) (cfg : HCLS3Config) :
    BuildOutcome HCLFailure :=
  let hostname := cfg.hostname.getD "s3.amazonaws.com"
  let cacheSize : Int := cfg.cacheSize.getD (shiftLeft64 32 20)
  let p := bucketAndDirPrefix cfg.bucket
  let sto0 : S3Storage :=
    { bucket := p.1, dirPrefix := p.2, hostname := hostname,
      clientHostname := hostname, accessKey := cfg.accessKeyID,
      secretAccessKey := cfg.secretAccessKey }
  let skip := cfg.skipStartupCheck.getD false
  let check := if skip then (none, hostname, 0, [])
               else hclStartupCheck w p.1 hostname cfg.accessKeyID
  { result :=
      match check.1 with
      | some f => .error f
      | none => .ok (wrapCache cacheSize (.s3 { sto0 with clientHostname := check.2.1 })),
    listBucketCalls := check.2.2.1,
    warnings := check.2.2.2,
    clientHostname := check.2.1 }

/-- The `jsonconfig` fields `newFromConfigWithTransport` consumes (string
extraction and `config.Validate()` belong to the out-of-scope `jsonconfig`
collaborator). -/
structure JSONS3Config where
  hostname : Option String
  cacheSize : Option Int
  accessKey : String
  secretAccessKey : String
  bucket : String
  skipStartupCheck : Option Bool
deriving DecidableEq

/-- The startup-check block of `newFromConfigWithTransport`: as in the HCL
path, but `NoSuchBucket` produces a plain error naming the bucket and there
is no dedicated invalid-credentials case. -/
def jsonStartupCheck (w : S3World) (bucket hostname : String) :
    Option String × String × Nat × List String :=
  match w.ListBucket hostname bucket with
  | none => (none, hostname, 1, [])
  | some (.other m) =>
      (some ("Error listing bucket " ++ bucket ++ ": " ++
        ListBucketErr.render (.other m)), hostname, 1, [])
  | some (.s3 serr) =>
    if serr.amazonCode = "NoSuchBucket" then
      (some ("bucket \"" ++ bucket ++ "\" doesn't exist"), hostname, 1, [])
    else
      match redirectRecover w serr bucket hostname with
      | .error m => (some m, hostname, 1, [])
      | .ok (some e, h, c, ws) =>
          (some ("Error listing bucket " ++ bucket ++ ": " ++ e.render),
            h, 1 + c, ws)
      | .ok (none, h, c, ws) => (none, h, 1 + c, ws)

/-- `newFromConfigWithTransport` (the transport argument only routes HTTP
in the real client and has no counterpart in the network oracle). -/
def newFromConfigWithTransport (w : S3World) (cfg : JSONS3Config) :
    BuildOutcome String :=
  let hostname := cfg.hostname.getD "s3.amazonaws.com"
  let cacheSize : Int := cfg.cacheSize.getD (shiftLeft64 32 20)
  let p := bucketAndDirPrefix cfg.bucket
  let sto0 : S3Storage :=
    { bucket := p.1, dirPrefix := p.2, hostname := hostname,
      clientHostname := hostname, accessKey := cfg.accessKey,
      secretAccessKey := cfg.secretAccessKey }
  let skip := cfg.skipStartupCheck.getD false
  let check := if skip then (none, hostname, 0, [])
               else jsonStartupCheck w p.1 hostname
  { result :=
      match check.1 with
      | some f => .error f
      | none => .ok (wrapCache cacheSize (.s3 { sto0 with clientHostname := check.2.1 })),
    listBucketCalls := check.2.2.1,
    warnings := check.2.2.2,
    clientHostname := check.2.1 }

/-! ### Redirect-recovery lemmas -/

theorem redirectRecover_permanent_err (w : S3World) (serr : S3Err)
    (bucket hostname lerr : String)
    (hcode : serr.amazonCode = "PermanentRedirect")
    (hloc : w.BucketLocation hostname bucket = .error lerr) :
    redirectRecover w serr bucket hostname =
      .error ("Wrong server for bucket \"" ++ bucket ++
        "\"; and error determining bucket's location: " ++ lerr) := by
  simp [redirectRecover, hcode, hloc]

theorem redirectRecover_permanent_ok (w : S3World) (serr : S3Err)
    (bucket hostname loc : String)
    (hcode : serr.amazonCode = "PermanentRedirect")
    (hue : serr.useEndpoint = "")
    (hloc : w.BucketLocation hostname bucket = .ok loc) :
    redirectRecover w serr bucket hostname =
      .ok (w.ListBucket loc bucket, loc, 1,
        if w.ListBucket loc bucket = none then [warnMsg loc hostname]
        else []) := by
  simp [redirectRecover, hcode, hue, hloc]

theorem redirectRecover_permanent_both (w : S3World) (serr : S3Err)
    (bucket hostname loc : String)
    (hcode : serr.amazonCode = "PermanentRedirect")
    (hue : serr.useEndpoint ≠ "")
    (hloc : w.BucketLocation hostname bucket = .ok loc) :
    redirectRecover w serr bucket hostname =
      .ok (w.ListBucket (goTrimPrefix serr.useEndpoint (bucket ++ ".")) bucket,
        goTrimPrefix serr.useEndpoint (bucket ++ "."), 2,
        (if w.ListBucket loc bucket = none then [warnMsg loc hostname] else []) ++
          (if w.ListBucket (goTrimPrefix serr.useEndpoint (bucket ++ ".")) bucket = none
           then [warnMsg (goTrimPrefix serr.useEndpoint (bucket ++ ".")) hostname]
           else [])) := by
  simp [redirectRecover, hcode, hue, hloc]

theorem redirectRecover_endpoint (w : S3World) (serr : S3Err)
    (bucket hostname : String)
    (hcode : serr.amazonCode ≠ "PermanentRedirect")
    (hue : serr.useEndpoint ≠ "") :
    redirectRecover w serr bucket hostname =
      .ok (w.ListBucket (goTrimPrefix serr.useEndpoint (bucket ++ ".")) bucket,
        goTrimPrefix serr.useEndpoint (bucket ++ "."), 1,
        if w.ListBucket (goTrimPrefix serr.useEndpoint (bucket ++ ".")) bucket = none
        then [warnMsg (goTrimPrefix serr.useEndpoint (bucket ++ ".")) hostname]
        else []) := by
  simp [redirectRecover, hcode, hue]

theorem redirectRecover_none (w : S3World) (serr : S3Err)
    (bucket hostname : String)
    (hcode : serr.amazonCode ≠ "PermanentRedirect")
    (hue : serr.useEndpoint = "") :
    redirectRecover w serr bucket hostname =
      .ok (some (.s3 serr), hostname, 0, []) := by
  simp [redirectRecover, hcode, hue]

theorem redirectRecover_calls_le (w : S3World) (serr : S3Err)
    (bucket hostname : String) (e : Option ListBucketErr) (h : String)
    (c : Nat) (ws : List String)
    (hr : redirectRecover w serr bucket hostname = .ok (e, h, c, ws)) :
    c ≤ 2 ∧ (serr.WellFormed → c ≤ 1) := by
  by_cases hcode : serr.amazonCode = "PermanentRedirect"
  · cases hloc : w.BucketLocation hostname bucket with
    | error lerr =>
        rw [redirectRecover_permanent_err w serr bucket hostname lerr hcode hloc]
          at hr
        exact absurd hr (by simp)
    | ok loc =>
        by_cases hue : serr.useEndpoint = ""
        · rw [redirectRecover_permanent_ok w serr bucket hostname loc hcode hue
            hloc] at hr
          obtain ⟨-, -, hc, -⟩ := by simpa using hr
          exact ⟨by omega, fun _ => by omega⟩
        · rw [redirectRecover_permanent_both w serr bucket hostname loc hcode hue
            hloc] at hr
          obtain ⟨-, -, hc, -⟩ := by simpa using hr
          exact ⟨by omega, fun hwf => absurd ⟨hcode, hue⟩ hwf⟩
  · by_cases hue : serr.useEndpoint = ""
    · rw [redirectRecover_none w serr bucket hostname hcode hue] at hr
      obtain ⟨-, -, hc, -⟩ := by simpa using hr
      exact ⟨by omega, fun _ => by omega⟩
    · rw [redirectRecover_endpoint w serr bucket hostname hcode hue] at hr
      obtain ⟨-, -, hc, -⟩ := by simpa using hr
      exact ⟨by omega, fun _ => by omega⟩

/-! ### Startup-check lemmas -/

theorem hclStartupCheck_redirect (w : S3World) (bucket hostname ak : String)
    (serr : S3Err)
    (hfirst : w.ListBucket hostname bucket = some (.s3 serr))
    (hnb : serr.amazonCode ≠ "NoSuchBucket")
    (hak : serr.amazonCode ≠ "InvalidAccessKeyId") :
    hclStartupCheck w bucket hostname ak =
      match redirectRecover w serr bucket hostname with
      | .error m => (some (.errorMsg m), hostname, 1, [])
      | .ok (some e, h, c, ws) =>
          (some (.errorMsg ("Error listing bucket " ++ bucket ++ ": " ++
            e.render)), h, 1 + c, ws)
      | .ok (none, h, c, ws) => (none, h, 1 + c, ws) := by
  unfold hclStartupCheck
  rw [hfirst]
  simp [hnb, hak]

theorem hclStartupCheck_calls_le (w : S3World) (bucket hostname ak : String)
    (hwf : ∀ e, w.ListBucket hostname bucket = some (.s3 e) → e.WellFormed) :
    (hclStartupCheck w bucket hostname ak).2.2.1 ≤ 2 := by
  unfold hclStartupCheck
  cases hfirst : w.ListBucket hostname bucket with
  | none => simp
  | some err =>
    cases err with
    | other m => simp
    | s3 serr =>
      by_cases hnb : serr.amazonCode = "NoSuchBucket"
      · simp [hnb]
      · by_cases hak : serr.amazonCode = "InvalidAccessKeyId"
        · simp [hnb, hak]
        · simp only [hnb, hak, if_false]
          cases hr : redirectRecover w serr bucket hostname with
          | error m => simp
          | ok t =>
            obtain ⟨e, h, c, ws⟩ := t
            have hb := (redirectRecover_calls_le w serr bucket hostname e h c
              ws hr).2 (hwf serr hfirst)
            cases e with
            | none => simpa using by omega
            | some e0 => simpa using by omega

theorem jsonStartupCheck_redirect (w : S3World) (bucket hostname : String)
    (serr : S3Err)
    (hfirst : w.ListBucket hostname bucket = some (.s3 serr))
    (hnb : serr.amazonCode ≠ "NoSuchBucket") :
    jsonStartupCheck w bucket hostname =
      match redirectRecover w serr bucket hostname with
      | .error m => (some m, hostname, 1, [])
      | .ok (some e, h, c, ws) =>
          (some ("Error listing bucket " ++ bucket ++ ": " ++ e.render),
            h, 1 + c, ws)
      | .ok (none, h, c, ws) => (none, h, 1 + c, ws) := by
  unfold jsonStartupCheck
  rw [hfirst]
  simp [hnb]

theorem jsonStartupCheck_calls_le (w : S3World) (bucket hostname : String)
    (hwf : ∀ e, w.ListBucket hostname bucket = some (.s3 e) → e.WellFormed) :
    (jsonStartupCheck w bucket hostname).2.2.1 ≤ 2 := by
  unfold jsonStartupCheck
  cases hfirst : w.ListBucket hostname bucket with
  | none => simp
  | some err =>
    cases err with
    | other m => simp
    | s3 serr =>
      by_cases hnb : serr.amazonCode = "NoSuchBucket"
      · simp [hnb]
      · simp only [hnb, if_false]
        cases hr : redirectRecover w serr bucket hostname with
        | error m => simp
        | ok t =>
          obtain ⟨e, h, c, ws⟩ := t
          have hb := (redirectRecover_calls_le w serr bucket hostname e h c
            ws hr).2 (hwf serr hfirst)
          cases e with
          | none => simpa using by omega
          | some e0 => simpa using by omega

/-! ### Constructor result shape -/

theorem NewFromHCLConfig_ok_shape (w : S3World) (cfg : HCLS3Config)
    (sto : Storage) (h : (NewFromHCLConfig w cfg).result = .ok sto) :
    ∃ base : S3Storage,
      sto = wrapCache (cfg.cacheSize.getD (shiftLeft64 32 20)) (.s3 base) := by
  unfold NewFromHCLConfig at h
  dsimp only at h
  split at h
  · exact absurd h (by simp)
  · exact ⟨_, by simpa using h.symm⟩

theorem newFromConfigWithTransport_ok_shape (w : S3World) (cfg : JSONS3Config)
    (sto : Storage)
    (h : (newFromConfigWithTransport w cfg).result = .ok sto) :
    ∃ base : S3Storage,
      sto = wrapCache (cfg.cacheSize.getD (shiftLeft64 32 20)) (.s3 base) := by
  unfold newFromConfigWithTransport at h
  dsimp only at h
  split at h
  · exact absurd h (by simp)
  · exact ⟨_, by simpa using h.symm⟩

/-- A world that answers every listing with success; the constructions that
use it below all skip the startup check, so it is never consulted. -/
def trivialWorld : S3World :=
  { ListBucket := fun _ _ => none, BucketLocation := fun _ b => .ok b }

/-- The configuration of the C7 counterexample: cache size `2^61`, startup
check skipped. -/
def cfgBig : HCLS3Config :=
  { bucket := "mybucket", hostname := none, cacheSize := some (2 ^ 61),
    accessKeyID := "AK", secretAccessKey := "SK",
    skipStartupCheck := some true }

/-- A configuration with the default cache size, startup check skipped. -/
def cfgSkip : HCLS3Config :=
  { bucket := "mybucket/archive", hostname := none, cacheSize := none,
    accessKeyID := "AK", secretAccessKey := "SK",
    skipStartupCheck := some true }

/-- The `s3Storage` value `cfgSkip` produces. -/
def baseSkip : S3Storage :=
  { bucket := "mybucket", dirPrefix := "archive/",
    hostname := "s3.amazonaws.com", clientHostname := "s3.amazonaws.com",
    accessKey := "AK", secretAccessKey := "SK" }

/-- The bare storage from the zero-cache-size witness construction. -/
def baseJ : S3Storage :=
  { bucket := "b2", dirPrefix := "", hostname := "s3.amazonaws.com",
    clientHostname := "s3.amazonaws.com", accessKey := "AK",
    secretAccessKey := "SK" }

/-- A `jsonconfig` configuration with cache size zero, startup check
skipped. -/
def jcfgSkip : JSONS3Config :=
  { hostname := none, cacheSize := some 0, accessKey := "AK",
    secretAccessKey := "SK", bucket := "b2", skipStartupCheck := some true }

/-! ## Claim theorems about the S3 constructors -/

/-- **C7 (amended).** Every successful construction with a non-zero effective
cache size (default `32<<20`) returns the fresh backend wrapped as
`proxycache(outer, memory(cacheSize), backend)` with the inner memory tier
capacity equal to the cache size, where `outer` is `cacheSize<<2` — the
four-fold size reduced to `int64` by two's-complement wraparound, equal to
exactly `4 * cacheSize` whenever that product fits in `int64` (as with the
default); with cache size zero the bare backend is returned. -/
theorem construction_cache_wrap (w : S3World) (cfg : HCLS3Config)
    (jcfg : JSONS3Config) (sto sto' : Storage)
    (h : (NewFromHCLConfig w cfg).result = .ok sto)
    (h' : (newFromConfigWithTransport w jcfg).result = .ok sto') :
    (cfg.cacheSize.getD (shiftLeft64 32 20) ≠ 0 →
      ∃ base : S3Storage,
        sto = .proxyCache (shiftLeft64 (cfg.cacheSize.getD (shiftLeft64 32 20)) 2)
          (.memCache (cfg.cacheSize.getD (shiftLeft64 32 20))) (.s3 base)) ∧
    (cfg.cacheSize.getD (shiftLeft64 32 20) = 0 →
      ∃ base : S3Storage, sto = .s3 base) ∧
    (jcfg.cacheSize.getD (shiftLeft64 32 20) ≠ 0 →
      ∃ base : S3Storage,
        sto' = .proxyCache (shiftLeft64 (jcfg.cacheSize.getD (shiftLeft64 32 20)) 2)
          (.memCache (jcfg.cacheSize.getD (shiftLeft64 32 20))) (.s3 base)) ∧
    (jcfg.cacheSize.getD (shiftLeft64 32 20) = 0 →
      ∃ base : S3Storage, sto' = .s3 base) ∧
    shiftLeft64 32 20 = 32 * 2 ^ 20 ∧
    (∀ c : Int, -(2 ^ 63) ≤ 4 * c → 4 * c < 2 ^ 63 →
      shiftLeft64 c 2 = 4 * c) := by
  obtain ⟨base, hb⟩ := NewFromHCLConfig_ok_shape w cfg sto h
  obtain ⟨base', hb'⟩ := newFromConfigWithTransport_ok_shape w jcfg sto' h'
  refine ⟨?_, ?_, ?_, ?_, by decide, ?_⟩
  · intro hc
    exact ⟨base, by rw [hb, wrapCache, if_pos hc]⟩
  · intro hc
    exact ⟨base, by rw [hb, wrapCache, if_neg (by simp [hc])]⟩
  · intro hc
    exact ⟨base', by rw [hb', wrapCache, if_pos hc]⟩
  · intro hc
    exact ⟨base', by rw [hb', wrapCache, if_neg (by simp [hc])]⟩
  · intro c h1 h2
    simp only [shiftLeft64, wrap64]
    omega

theorem construction_cache_wrap_witness :
    (∃ base : S3Storage,
      Storage.proxyCache 134217728 (.memCache 33554432) (.s3 baseSkip) =
        .proxyCache (shiftLeft64 (cfgSkip.cacheSize.getD (shiftLeft64 32 20)) 2)
          (.memCache (cfgSkip.cacheSize.getD (shiftLeft64 32 20)))
          (.s3 base)) ∧
    (∃ base : S3Storage, Storage.s3 baseJ = .s3 base) :=
  ⟨(construction_cache_wrap trivialWorld cfgSkip jcfgSkip
      (.proxyCache 134217728 (.memCache 33554432) (.s3 baseSkip)) (.s3 baseJ)
      (by decide) (by decide)).1 (by decide),
   (construction_cache_wrap trivialWorld cfgSkip jcfgSkip
      (.proxyCache 134217728 (.memCache 33554432) (.s3 baseSkip)) (.s3 baseJ)
      (by decide) (by decide)).2.2.2.1 (by decide)⟩

/-- **C7 counterexample.** With configured cache size `2^61` (and the startup
check skipped so construction trivially succeeds) the construction returns an
outer tier whose capacity is `-(2^63)` — the `int64` wraparound of
`cacheSize<<2` — which is not `4 * 2^61`: the outer capacity is not always
exactly four times the cache size. -/
theorem construction_cache_wrap_counterexample :
    (NewFromHCLConfig trivialWorld cfgBig).result =
      .ok (.proxyCache (-(2 ^ 63)) (.memCache (2 ^ 61))
        (.s3 { bucket := "mybucket", dirPrefix := "",
               hostname := "s3.amazonaws.com",
               clientHostname := "s3.amazonaws.com", accessKey := "AK",
               secretAccessKey := "SK" })) ∧
    (-(2 ^ 63) : Int) ≠ 4 * 2 ^ 61 := by
  exact ⟨by decide, by decide⟩

/-! ### Bucket-spec splitting -/

theorem splitN2_no_slash (l : List Char) (h : '/' ∉ l) :
    splitN2 l = (l, none) := by
  induction l with
  | nil => rfl
  | cons c cs ih =>
    have hc : ¬ c = '/' := by
      intro hc
      subst hc
      exact h (List.mem_cons_self _ _)
    have hcs : '/' ∉ cs := fun hm => h (List.mem_cons_of_mem c hm)
    simp [splitN2, hc, ih hcs]

theorem splitN2_first_slash (b r : List Char) (h : '/' ∉ b) :
    splitN2 (b ++ '/' :: r) = (b, some r) := by
  induction b with
  | nil => simp [splitN2]
  | cons c cs ih =>
    have hc : ¬ c = '/' := by
      intro hc
      subst hc
      exact h (List.mem_cons_self _ _)
    have hcs : '/' ∉ cs := fun hm => h (List.mem_cons_of_mem c hm)
    simp [splitN2, hc, ih hcs]

theorem hasSlashSuffix_concat (l : List Char) :
    hasSlashSuffix (l ++ ['/']) = true := by
  simp [hasSlashSuffix]

/-- **C6.** Construction splits the bucket spec on the first `"/"`: the part
before the slash is the bucket name; with a slash present the remainder
becomes the key prefix, suffixed with `"/"` when it does not already end in
one (the empty remainder stays empty, see `bucket_spec_empty_remainder`);
a slash-free spec yields an empty prefix; in particular
`"mybucket/archive"` yields bucket `"mybucket"` and prefix `"archive/"`. -/
theorem bucket_spec_split (b r : List Char) (hb : '/' ∉ b) :
    bucketAndDirPrefix ⟨b ++ '/' :: r⟩ =
      (⟨b⟩, if r.isEmpty then ("" : String)
            else if hasSlashSuffix r then ⟨r⟩ else ⟨r ++ ['/']⟩) ∧
    bucketAndDirPrefix ⟨b⟩ = (⟨b⟩, "") ∧
    bucketAndDirPrefix "mybucket/archive" = ("mybucket", "archive/") := by
  refine ⟨?_, ?_, by decide⟩
  · have hs : splitN2 (String.data ⟨b ++ '/' :: r⟩) = (b, some r) :=
      splitN2_first_slash b r hb
    simp only [bucketAndDirPrefix, hs]
    cases hre : r.isEmpty with
    | true =>
        have : r = [] := by simpa using hre
        subst this
        rfl
    | false =>
        cases hsl : hasSlashSuffix r with
        | true => simp [hre, hsl]
        | false => simp [hre, hsl]
  · have hs : splitN2 (String.data ⟨b⟩) = (b, none) := splitN2_no_slash b hb
    simp only [bucketAndDirPrefix, hs]

theorem bucket_spec_split_witness :
    bucketAndDirPrefix ⟨['m', 'y'] ++ '/' :: ['a']⟩ =
      (⟨['m', 'y']⟩, if List.isEmpty ['a'] then ("" : String)
        else if hasSlashSuffix ['a'] then ⟨['a']⟩ else ⟨['a'] ++ ['/']⟩) ∧
    bucketAndDirPrefix ⟨['m', 'y']⟩ = (⟨['m', 'y']⟩, "") ∧
    bucketAndDirPrefix "mybucket/archive" = ("mybucket", "archive/") :=
  bucket_spec_split ['m', 'y'] ['a'] (by decide)

/-- **C10.** A bucket spec whose first `"/"` is followed by nothing yields an
empty key prefix (the empty remainder is not slash-suffixed), so construction
behaves exactly as with the spec without the trailing slash; and the derived
prefix is always either empty or slash-terminated. -/
theorem bucket_spec_empty_remainder (b : List Char) (hb : '/' ∉ b) :
    bucketAndDirPrefix ⟨b ++ ['/']⟩ = (⟨b⟩, "") ∧
    bucketAndDirPrefix ⟨b ++ ['/']⟩ = bucketAndDirPrefix ⟨b⟩ ∧
    (∀ (w : S3World) (cfg : HCLS3Config),
      NewFromHCLConfig w { cfg with bucket := ⟨b ++ ['/']⟩ } =
        NewFromHCLConfig w { cfg with bucket := ⟨b⟩ }) ∧
    (∀ s : String, (bucketAndDirPrefix s).2 = "" ∨
      hasSlashSuffix ((bucketAndDirPrefix s).2).data = true) := by
  have hs : splitN2 (String.data ⟨b ++ ['/']⟩) = (b, some []) :=
    splitN2_first_slash b [] hb
  have h1 : bucketAndDirPrefix ⟨b ++ ['/']⟩ = (⟨b⟩, "") := by
    simp only [bucketAndDirPrefix, hs]
    rfl
  have h2 : bucketAndDirPrefix ⟨b ++ ['/']⟩ = bucketAndDirPrefix ⟨b⟩ := by
    have hs2 : splitN2 (String.data ⟨b⟩) = (b, none) := splitN2_no_slash b hb
    rw [h1]
    simp only [bucketAndDirPrefix, hs2]
  refine ⟨h1, h2, ?_, ?_⟩
  · intro w cfg
    unfold NewFromHCLConfig
    dsimp only
    rw [h2]
  · intro s
    rcases hsp : splitN2 s.data with ⟨bb, _ | rest⟩
    · left
      simp [bucketAndDirPrefix, hsp]
    · simp only [bucketAndDirPrefix, hsp]
      cases hre : rest.isEmpty with
      | true =>
          left
          have : rest = [] := by simpa using hre
          subst this
          rfl
      | false =>
          cases hsl : hasSlashSuffix rest with
          | true =>
              right
              simp [hre, hsl]
          | false =>
              right
              simp only [hre, hsl, Bool.not_false, Bool.not_true,
                Bool.and_true, Bool.and_false]
              simpa using hasSlashSuffix_concat rest

theorem bucket_spec_empty_remainder_witness :
    bucketAndDirPrefix ⟨['m', 'y'] ++ ['/']⟩ = (⟨['m', 'y']⟩, "") ∧
    bucketAndDirPrefix ⟨['m', 'y'] ++ ['/']⟩ = bucketAndDirPrefix ⟨['m', 'y']⟩ :=
  ⟨(bucket_spec_empty_remainder ['m', 'y'] (by decide)).1,
   (bucket_spec_empty_remainder ['m', 'y'] (by decide)).2.1⟩

/-! ### From startup check to construction outcome -/

theorem NewFromHCLConfig_of_check_err (w : S3World) (cfg : HCLS3Config)
    (f : HCLFailure) (h : String) (c : Nat) (ws : List String)
    (hskip : cfg.skipStartupCheck.getD false = false)
    (hc : hclStartupCheck w (bucketAndDirPrefix cfg.bucket).1
        (cfg.hostname.getD "s3.amazonaws.com") cfg.accessKeyID =
      (some f, h, c, ws)) :
    NewFromHCLConfig w cfg =
      { result := .error f, listBucketCalls := c, warnings := ws,
        clientHostname := h } := by
  unfold NewFromHCLConfig
  simp only [hskip, Bool.false_eq_true, if_false, hc]

theorem NewFromHCLConfig_of_check_ok (w : S3World) (cfg : HCLS3Config)
    (h : String) (c : Nat) (ws : List String)
    (hskip : cfg.skipStartupCheck.getD false = false)
    (hc : hclStartupCheck w (bucketAndDirPrefix cfg.bucket).1
        (cfg.hostname.getD "s3.amazonaws.com") cfg.accessKeyID =
      (none, h, c, ws)) :
    NewFromHCLConfig w cfg =
      { result := .ok (wrapCache (cfg.cacheSize.getD (shiftLeft64 32 20))
          (.s3 { bucket := (bucketAndDirPrefix cfg.bucket).1,
                 dirPrefix := (bucketAndDirPrefix cfg.bucket).2,
                 hostname := cfg.hostname.getD "s3.amazonaws.com",
                 clientHostname := h, accessKey := cfg.accessKeyID,
                 secretAccessKey := cfg.secretAccessKey })),
        listBucketCalls := c, warnings := ws, clientHostname := h } := by
  unfold NewFromHCLConfig
  simp only [hskip, Bool.false_eq_true, if_false, hc]

theorem newFromConfigWithTransport_of_check_err (w : S3World)
    (cfg : JSONS3Config) (f h : String) (c : Nat) (ws : List String)
    (hskip : cfg.skipStartupCheck.getD false = false)
    (hc : jsonStartupCheck w (bucketAndDirPrefix cfg.bucket).1
        (cfg.hostname.getD "s3.amazonaws.com") = (some f, h, c, ws)) :
    newFromConfigWithTransport w cfg =
      { result := .error f, listBucketCalls := c, warnings := ws,
        clientHostname := h } := by
  unfold newFromConfigWithTransport
  simp only [hskip, Bool.false_eq_true, if_false, hc]

theorem newFromConfigWithTransport_of_check_ok (w : S3World)
    (cfg : JSONS3Config) (h : String) (c : Nat) (ws : List String)
    (hskip : cfg.skipStartupCheck.getD false = false)
    (hc : jsonStartupCheck w (bucketAndDirPrefix cfg.bucket).1
        (cfg.hostname.getD "s3.amazonaws.com") = (none, h, c, ws)) :
    newFromConfigWithTransport w cfg =
      { result := .ok (wrapCache (cfg.cacheSize.getD (shiftLeft64 32 20))
          (.s3 { bucket := (bucketAndDirPrefix cfg.bucket).1,
                 dirPrefix := (bucketAndDirPrefix cfg.bucket).2,
                 hostname := cfg.hostname.getD "s3.amazonaws.com",
                 clientHostname := h, accessKey := cfg.accessKey,
                 secretAccessKey := cfg.secretAccessKey })),
        listBucketCalls := c, warnings := ws, clientHostname := h } := by
  unfold newFromConfigWithTransport
  simp only [hskip, Bool.false_eq_true, if_false, hc]

/-- **C2.** With the startup check enabled: a `NoSuchBucket` startup failure
makes construction fail with a fatal configuration error naming the bucket —
in the HCL path a diagnostic whose detail names the bucket and whose subject
is the bucket argument's configuration range, in the json path an error
naming the bucket — and an `InvalidAccessKeyId` failure makes the HCL
construction fail with a diagnostic naming the rejected access key id at its
configuration range (the json path fails with the listing error carrying the
`InvalidAccessKeyId` code); in all cases no backend is returned. -/
theorem startup_fatal_config_errors (w : S3World) (cfg : HCLS3Config)
    (jcfg : JSONS3Config) :
    (∀ serr : S3Err, cfg.skipStartupCheck.getD false = false →
      w.ListBucket (cfg.hostname.getD "s3.amazonaws.com")
          (bucketAndDirPrefix cfg.bucket).1 = some (.s3 serr) →
      serr.amazonCode = "NoSuchBucket" →
      (NewFromHCLConfig w cfg).result =
        .error (.diags [noSuchBucketDiag (bucketAndDirPrefix cfg.bucket).1]) ∧
      ∀ sto, (NewFromHCLConfig w cfg).result ≠ .ok sto) ∧
    (∀ serr : S3Err, cfg.skipStartupCheck.getD false = false →
      w.ListBucket (cfg.hostname.getD "s3.amazonaws.com")
          (bucketAndDirPrefix cfg.bucket).1 = some (.s3 serr) →
      serr.amazonCode = "InvalidAccessKeyId" →
      (NewFromHCLConfig w cfg).result =
        .error (.diags [invalidAccessKeyDiag cfg.accessKeyID]) ∧
      ∀ sto, (NewFromHCLConfig w cfg).result ≠ .ok sto) ∧
    (∀ serr : S3Err, jcfg.skipStartupCheck.getD false = false →
      w.ListBucket (jcfg.hostname.getD "s3.amazonaws.com")
          (bucketAndDirPrefix jcfg.bucket).1 = some (.s3 serr) →
      serr.amazonCode = "NoSuchBucket" →
      (newFromConfigWithTransport w jcfg).result =
        .error ("bucket \"" ++ (bucketAndDirPrefix jcfg.bucket).1 ++
          "\" doesn't exist") ∧
      ∀ sto, (newFromConfigWithTransport w jcfg).result ≠ .ok sto) ∧
    (∀ serr : S3Err, jcfg.skipStartupCheck.getD false = false →
      w.ListBucket (jcfg.hostname.getD "s3.amazonaws.com")
          (bucketAndDirPrefix jcfg.bucket).1 = some (.s3 serr) →
      serr.amazonCode = "InvalidAccessKeyId" → serr.useEndpoint = "" →
      (newFromConfigWithTransport w jcfg).result =
        .error ("Error listing bucket " ++ (bucketAndDirPrefix jcfg.bucket).1 ++
          ": " ++ ListBucketErr.render (.s3 serr)) ∧
      ∀ sto, (newFromConfigWithTransport w jcfg).result ≠ .ok sto) := by
  refine ⟨?_, ?_, ?_, ?_⟩
  · intro serr hskip hfirst hcode
    have hc : hclStartupCheck w (bucketAndDirPrefix cfg.bucket).1
        (cfg.hostname.getD "s3.amazonaws.com") cfg.accessKeyID =
        (some (.diags [noSuchBucketDiag (bucketAndDirPrefix cfg.bucket).1]),
          cfg.hostname.getD "s3.amazonaws.com", 1, []) := by
      unfold hclStartupCheck
      rw [hfirst]
      simp [hcode]
    rw [NewFromHCLConfig_of_check_err w cfg _ _ _ _ hskip hc]
    exact ⟨rfl, fun sto => by simp⟩
  · intro serr hskip hfirst hcode
    have hnb : serr.amazonCode ≠ "NoSuchBucket" := by
      rw [hcode]
      decide
    have hc : hclStartupCheck w (bucketAndDirPrefix cfg.bucket).1
        (cfg.hostname.getD "s3.amazonaws.com") cfg.accessKeyID =
        (some (.diags [invalidAccessKeyDiag cfg.accessKeyID]),
          cfg.hostname.getD "s3.amazonaws.com", 1, []) := by
      unfold hclStartupCheck
      rw [hfirst]
      simp [hnb, hcode]
    rw [NewFromHCLConfig_of_check_err w cfg _ _ _ _ hskip hc]
    exact ⟨rfl, fun sto => by simp⟩
  · intro serr hskip hfirst hcode
    have hc : jsonStartupCheck w (bucketAndDirPrefix jcfg.bucket).1
        (jcfg.hostname.getD "s3.amazonaws.com") =
        (some ("bucket \"" ++ (bucketAndDirPrefix jcfg.bucket).1 ++
          "\" doesn't exist"), jcfg.hostname.getD "s3.amazonaws.com", 1, []) := by
      unfold jsonStartupCheck
      rw [hfirst]
      simp [hcode]
    rw [newFromConfigWithTransport_of_check_err w jcfg _ _ _ _ hskip hc]
    exact ⟨rfl, fun sto => by simp⟩
  · intro serr hskip hfirst hcode hue
    have hnb : serr.amazonCode ≠ "NoSuchBucket" := by
      rw [hcode]
      decide
    have hpr : serr.amazonCode ≠ "PermanentRedirect" := by
      rw [hcode]
      decide
    have hc : jsonStartupCheck w (bucketAndDirPrefix jcfg.bucket).1
        (jcfg.hostname.getD "s3.amazonaws.com") =
        (some ("Error listing bucket " ++ (bucketAndDirPrefix jcfg.bucket).1 ++
          ": " ++ ListBucketErr.render (.s3 serr)),
          jcfg.hostname.getD "s3.amazonaws.com", 1, []) := by
      rw [jsonStartupCheck_redirect w (bucketAndDirPrefix jcfg.bucket).1
        (jcfg.hostname.getD "s3.amazonaws.com") serr hfirst hnb]
      rw [redirectRecover_none w serr (bucketAndDirPrefix jcfg.bucket).1
        (jcfg.hostname.getD "s3.amazonaws.com") hpr hue]
    rw [newFromConfigWithTransport_of_check_err w jcfg _ _ _ _ hskip hc]
    exact ⟨rfl, fun sto => by simp⟩

/-- Configurations and worlds for the C2 witness. -/
def cfgH : HCLS3Config :=
  { bucket := "wbucket", hostname := none, cacheSize := none,
    accessKeyID := "AKID", secretAccessKey := "SK",
    skipStartupCheck := none }

def jcfgW : JSONS3Config :=
  { hostname := none, cacheSize := none, accessKey := "AKID",
    secretAccessKey := "SK", bucket := "wbucket",
    skipStartupCheck := none }

/-- A service for which the bucket does not exist. -/
def worldNoBucket : S3World :=
  { ListBucket := fun _ _ =>
      some (.s3 { amazonCode := "NoSuchBucket", useEndpoint := "" }),
    BucketLocation := fun _ _ => .error "nope" }

/-- A service that rejects the access key. -/
def worldBadKey : S3World :=
  { ListBucket := fun _ _ =>
      some (.s3 { amazonCode := "InvalidAccessKeyId", useEndpoint := "" }),
    BucketLocation := fun _ _ => .error "nope" }

theorem startup_fatal_config_errors_witness :
    (NewFromHCLConfig worldNoBucket cfgH).result =
      .error (.diags [noSuchBucketDiag (bucketAndDirPrefix cfgH.bucket).1]) ∧
    (NewFromHCLConfig worldBadKey cfgH).result =
      .error (.diags [invalidAccessKeyDiag cfgH.accessKeyID]) ∧
    (newFromConfigWithTransport worldNoBucket jcfgW).result =
      .error ("bucket \"" ++ (bucketAndDirPrefix jcfgW.bucket).1 ++
        "\" doesn't exist") ∧
    (newFromConfigWithTransport worldBadKey jcfgW).result =
      .error ("Error listing bucket " ++ (bucketAndDirPrefix jcfgW.bucket).1 ++
        ": " ++ ListBucketErr.render
          (.s3 { amazonCode := "InvalidAccessKeyId", useEndpoint := "" })) :=
  ⟨((startup_fatal_config_errors worldNoBucket cfgH jcfgW).1
      { amazonCode := "NoSuchBucket", useEndpoint := "" } rfl rfl rfl).1,
   ((startup_fatal_config_errors worldBadKey cfgH jcfgW).2.1
      { amazonCode := "InvalidAccessKeyId", useEndpoint := "" } rfl rfl rfl).1,
   ((startup_fatal_config_errors worldNoBucket cfgH jcfgW).2.2.1
      { amazonCode := "NoSuchBucket", useEndpoint := "" } rfl rfl rfl).1,
   ((startup_fatal_config_errors worldBadKey cfgH jcfgW).2.2.2
      { amazonCode := "InvalidAccessKeyId", useEndpoint := "" } rfl rfl rfl
      rfl).1⟩

/-- **C1.** With the startup check enabled, when the first one-item listing
fails with a redirect-signalling `s3.Error` (classified per the spec, so the
two redirect conditions are mutually exclusive — `S3Err.WellFormed`), the
constructor rebinds the client's hostname — to the queried bucket location
for a region redirect, or to the suggested endpoint with the leading
`bucket+"."` stripped — and retries the listing exactly once (two listing
calls in total): a successful retry lets construction proceed and logs the
non-fatal warning; a failing retry's error is propagated as the final
listing error; a failing location query aborts with no retry; and no
construction (either path) against a service producing only spec-classified
errors ever issues more than one self-correcting retry. -/
theorem startup_redirect_single_retry (w : S3World) (cfg : HCLS3Config)
    (serr : S3Err)
    (hskip : cfg.skipStartupCheck.getD false = false)
    (hfirst : w.ListBucket (cfg.hostname.getD "s3.amazonaws.com")
        (bucketAndDirPrefix cfg.bucket).1 = some (.s3 serr))
    (hnb : serr.amazonCode ≠ "NoSuchBucket")
    (hak : serr.amazonCode ≠ "InvalidAccessKeyId")
    (hwf : serr.WellFormed) :
    (serr.amazonCode = "PermanentRedirect" →
      (∀ lerr, w.BucketLocation (cfg.hostname.getD "s3.amazonaws.com")
          (bucketAndDirPrefix cfg.bucket).1 = .error lerr →
        (NewFromHCLConfig w cfg).result = .error (.errorMsg
          ("Wrong server for bucket \"" ++ (bucketAndDirPrefix cfg.bucket).1 ++
            "\"; and error determining bucket's location: " ++ lerr)) ∧
        (NewFromHCLConfig w cfg).listBucketCalls = 1) ∧
      (∀ loc, w.BucketLocation (cfg.hostname.getD "s3.amazonaws.com")
          (bucketAndDirPrefix cfg.bucket).1 = .ok loc →
        (NewFromHCLConfig w cfg).listBucketCalls = 2 ∧
        (NewFromHCLConfig w cfg).clientHostname = loc ∧
        (w.ListBucket loc (bucketAndDirPrefix cfg.bucket).1 = none →
          (NewFromHCLConfig w cfg).result =
            .ok (wrapCache (cfg.cacheSize.getD (shiftLeft64 32 20))
              (.s3 { bucket := (bucketAndDirPrefix cfg.bucket).1,
                     dirPrefix := (bucketAndDirPrefix cfg.bucket).2,
                     hostname := cfg.hostname.getD "s3.amazonaws.com",
                     clientHostname := loc, accessKey := cfg.accessKeyID,
                     secretAccessKey := cfg.secretAccessKey })) ∧
          (NewFromHCLConfig w cfg).warnings =
            [warnMsg loc (cfg.hostname.getD "s3.amazonaws.com")]) ∧
        (∀ e, w.ListBucket loc (bucketAndDirPrefix cfg.bucket).1 = some e →
          (NewFromHCLConfig w cfg).result = .error (.errorMsg
            ("Error listing bucket " ++ (bucketAndDirPrefix cfg.bucket).1 ++
              ": " ++ e.render)) ∧
          (NewFromHCLConfig w cfg).warnings = []))) ∧
    (serr.useEndpoint ≠ "" →
      (NewFromHCLConfig w cfg).listBucketCalls = 2 ∧
      (NewFromHCLConfig w cfg).clientHostname =
        goTrimPrefix serr.useEndpoint ((bucketAndDirPrefix cfg.bucket).1 ++ ".") ∧
      (w.ListBucket (goTrimPrefix serr.useEndpoint
          ((bucketAndDirPrefix cfg.bucket).1 ++ "."))
          (bucketAndDirPrefix cfg.bucket).1 = none →
        (NewFromHCLConfig w cfg).result =
          .ok (wrapCache (cfg.cacheSize.getD (shiftLeft64 32 20))
            (.s3 { bucket := (bucketAndDirPrefix cfg.bucket).1,
                   dirPrefix := (bucketAndDirPrefix cfg.bucket).2,
                   hostname := cfg.hostname.getD "s3.amazonaws.com",
                   clientHostname := goTrimPrefix serr.useEndpoint
                     ((bucketAndDirPrefix cfg.bucket).1 ++ "."),
                   accessKey := cfg.accessKeyID,
                   secretAccessKey := cfg.secretAccessKey })) ∧
        (NewFromHCLConfig w cfg).warnings =
          [warnMsg (goTrimPrefix serr.useEndpoint
            ((bucketAndDirPrefix cfg.bucket).1 ++ "."))
            (cfg.hostname.getD "s3.amazonaws.com")]) ∧
      (∀ e, w.ListBucket (goTrimPrefix serr.useEndpoint
          ((bucketAndDirPrefix cfg.bucket).1 ++ "."))
          (bucketAndDirPrefix cfg.bucket).1 = some e →
        (NewFromHCLConfig w cfg).result = .error (.errorMsg
          ("Error listing bucket " ++ (bucketAndDirPrefix cfg.bucket).1 ++
            ": " ++ e.render)) ∧
        (NewFromHCLConfig w cfg).warnings = [])) ∧
    (∀ (v : S3World) (cfg' : HCLS3Config) (jcfg' : JSONS3Config),
      (∀ hn b e, v.ListBucket hn b = some (.s3 e) → e.WellFormed) →
      (NewFromHCLConfig v cfg').listBucketCalls ≤ 2 ∧
      (newFromConfigWithTransport v jcfg').listBucketCalls ≤ 2) := by
  refine ⟨?_, ?_, ?_⟩
  · intro hcode
    have hue : serr.useEndpoint = "" := by
      by_contra hne
      exact hwf ⟨hcode, hne⟩
    constructor
    · intro lerr hloc
      have hc : hclStartupCheck w (bucketAndDirPrefix cfg.bucket).1
          (cfg.hostname.getD "s3.amazonaws.com") cfg.accessKeyID =
          (some (.errorMsg ("Wrong server for bucket \"" ++
            (bucketAndDirPrefix cfg.bucket).1 ++
            "\"; and error determining bucket's location: " ++ lerr)),
            cfg.hostname.getD "s3.amazonaws.com", 1, []) := by
        rw [hclStartupCheck_redirect w (bucketAndDirPrefix cfg.bucket).1
          (cfg.hostname.getD "s3.amazonaws.com") cfg.accessKeyID serr hfirst
          hnb hak]
        rw [redirectRecover_permanent_err w serr (bucketAndDirPrefix cfg.bucket).1
          (cfg.hostname.getD "s3.amazonaws.com") lerr hcode hloc]
      rw [NewFromHCLConfig_of_check_err w cfg _ _ _ _ hskip hc]
      exact ⟨rfl, rfl⟩
    · intro loc hloc
      have hrr := redirectRecover_permanent_ok w serr
        (bucketAndDirPrefix cfg.bucket).1
        (cfg.hostname.getD "s3.amazonaws.com") loc hcode hue hloc
      cases hretry : w.ListBucket loc (bucketAndDirPrefix cfg.bucket).1 with
      | none =>
        have hc : hclStartupCheck w (bucketAndDirPrefix cfg.bucket).1
            (cfg.hostname.getD "s3.amazonaws.com") cfg.accessKeyID =
            (none, loc, 2, [warnMsg loc (cfg.hostname.getD "s3.amazonaws.com")]) := by
          rw [hclStartupCheck_redirect w (bucketAndDirPrefix cfg.bucket).1
            (cfg.hostname.getD "s3.amazonaws.com") cfg.accessKeyID serr hfirst
            hnb hak, hrr, hretry]
          simp
        rw [NewFromHCLConfig_of_check_ok w cfg _ _ _ hskip hc]
        refine ⟨rfl, rfl, fun _ => ⟨rfl, rfl⟩, ?_⟩
        intro e he
        exact absurd he (by simp)
      | some e0 =>
        have hc : hclStartupCheck w (bucketAndDirPrefix cfg.bucket).1
            (cfg.hostname.getD "s3.amazonaws.com") cfg.accessKeyID =
            (some (.errorMsg ("Error listing bucket " ++
              (bucketAndDirPrefix cfg.bucket).1 ++ ": " ++ e0.render)),
              loc, 2, []) := by
          rw [hclStartupCheck_redirect w (bucketAndDirPrefix cfg.bucket).1
            (cfg.hostname.getD "s3.amazonaws.com") cfg.accessKeyID serr hfirst
            hnb hak, hrr, hretry]
          simp
        rw [NewFromHCLConfig_of_check_err w cfg _ _ _ _ hskip hc]
        refine ⟨rfl, rfl, ?_, ?_⟩
        · intro hnone
          exact absurd hnone (by simp)
        · intro e he
          obtain rfl : e0 = e := by simpa using he
          exact ⟨rfl, rfl⟩
  · intro hue
    have hcode : serr.amazonCode ≠ "PermanentRedirect" := by
      intro hcode
      exact hwf ⟨hcode, hue⟩
    have hrr := redirectRecover_endpoint w serr
      (bucketAndDirPrefix cfg.bucket).1
      (cfg.hostname.getD "s3.amazonaws.com") hcode hue
    cases hretry : w.ListBucket (goTrimPrefix serr.useEndpoint
        ((bucketAndDirPrefix cfg.bucket).1 ++ "."))
        (bucketAndDirPrefix cfg.bucket).1 with
    | none =>
      have hc : hclStartupCheck w (bucketAndDirPrefix cfg.bucket).1
          (cfg.hostname.getD "s3.amazonaws.com") cfg.accessKeyID =
          (none, goTrimPrefix serr.useEndpoint
            ((bucketAndDirPrefix cfg.bucket).1 ++ "."), 2,
            [warnMsg (goTrimPrefix serr.useEndpoint
              ((bucketAndDirPrefix cfg.bucket).1 ++ "."))
              (cfg.hostname.getD "s3.amazonaws.com")]) := by
        rw [hclStartupCheck_redirect w (bucketAndDirPrefix cfg.bucket).1
          (cfg.hostname.getD "s3.amazonaws.com") cfg.accessKeyID serr hfirst
          hnb hak, hrr, hretry]
        simp
      rw [NewFromHCLConfig_of_check_ok w cfg _ _ _ hskip hc]
      refine ⟨rfl, rfl, fun _ => ⟨rfl, rfl⟩, ?_⟩
      intro e he
      exact absurd he (by simp)
    | some e0 =>
      have hc : hclStartupCheck w (bucketAndDirPrefix cfg.bucket).1
          (cfg.hostname.getD "s3.amazonaws.com") cfg.accessKeyID =
          (some (.errorMsg ("Error listing bucket " ++
            (bucketAndDirPrefix cfg.bucket).1 ++ ": " ++ e0.render)),
            goTrimPrefix serr.useEndpoint
              ((bucketAndDirPrefix cfg.bucket).1 ++ "."), 2, []) := by
        rw [hclStartupCheck_redirect w (bucketAndDirPrefix cfg.bucket).1
          (cfg.hostname.getD "s3.amazonaws.com") cfg.accessKeyID serr hfirst
          hnb hak, hrr, hretry]
        simp
      rw [NewFromHCLConfig_of_check_err w cfg _ _ _ _ hskip hc]
      refine ⟨rfl, rfl, ?_, ?_⟩
      · intro hnone
        exact absurd hnone (by simp)
      · intro e he
        obtain rfl : e0 = e := by simpa using he
        exact ⟨rfl, rfl⟩
  · intro v cfg' jcfg' hwfv
    constructor
    · unfold NewFromHCLConfig
      dsimp only
      by_cases hs : cfg'.skipStartupCheck.getD false = true
      · simp [hs]
      · have hs' : cfg'.skipStartupCheck.getD false = false := by
          simpa using hs
        simp only [hs', Bool.false_eq_true, if_false]
        exact hclStartupCheck_calls_le v (bucketAndDirPrefix cfg'.bucket).1
          (cfg'.hostname.getD "s3.amazonaws.com") cfg'.accessKeyID
          (fun e he => hwfv _ _ e he)
    · unfold newFromConfigWithTransport
      dsimp only
      by_cases hs : jcfg'.skipStartupCheck.getD false = true
      · simp [hs]
      · have hs' : jcfg'.skipStartupCheck.getD false = false := by
          simpa using hs
        simp only [hs', Bool.false_eq_true, if_false]
        exact jsonStartupCheck_calls_le v (bucketAndDirPrefix jcfg'.bucket).1
          (jcfg'.hostname.getD "s3.amazonaws.com")
          (fun e he => hwfv _ _ e he)

/-- A service whose default endpoint answers with a region redirect and whose
corrected endpoint accepts the listing. -/
def worldRedirect : S3World :=
  { ListBucket := fun hn _ =>
      if hn = "s3.amazonaws.com"
      then some (.s3 { amazonCode := "PermanentRedirect", useEndpoint := "" })
      else none,
    BucketLocation := fun _ _ => .ok "s3-eu-west-1.amazonaws.com" }

theorem startup_redirect_single_retry_witness :
    (NewFromHCLConfig worldRedirect cfgH).listBucketCalls = 2 ∧
    (NewFromHCLConfig worldRedirect cfgH).clientHostname =
      "s3-eu-west-1.amazonaws.com" ∧
    (NewFromHCLConfig worldRedirect cfgH).warnings =
      [warnMsg "s3-eu-west-1.amazonaws.com" "s3.amazonaws.com"] := by
  have h := (startup_redirect_single_retry worldRedirect cfgH
      { amazonCode := "PermanentRedirect", useEndpoint := "" }
      rfl (by decide) (by decide) (by decide) (by decide)).1 rfl
  have h2 := h.2 "s3-eu-west-1.amazonaws.com" rfl
  exact ⟨h2.1, h2.2.1, (h2.2.2.1 (by decide)).2⟩

end Camlistore
